import Mathlib

/-!
Shallow embedding of the youki init container builder
(crates/libcontainer/src/container/init_builder.rs) together with the parts
of its collaborators that the builder relies on.  External effectful
collaborators (OCI spec loader, apparmor probe, filesystem, rootless
resolver, runtime-config deriver, construction backend) live outside the
visible source, so they are modelled as an explicit environment of call
results (`World`).  Every observable mutation a build performs, and every
invocation of the construction backend, is recorded in an event trace so
that ordering properties can be stated and proved.
-/

/-- anyhow-style error value: a base message produced at the failure site
plus a chain of context descriptions (outermost first) added by `context`
calls while the error propagates. -/
structure BErr where
  ctx : List String
  base : String
deriving Repr, DecidableEq

/-- Context wrapping of an error, as anyhow Context does: pushes one more
outermost context description. -/
def BErr.withContext (s : String) (e : BErr) : BErr :=
  { e with ctx := s :: e.ctx }

/-- Container lifecycle status (container/state.rs, per spec section 4.3). -/
inductive ContainerStatus
  | Creating
  | Created
  | Running
  | Stopped
  | Paused
deriving Repr, DecidableEq

/-- Root block of an OCI runtime spec: rootfs path and readonly flag. -/
structure Root where
  path : String
  readonly : Option Bool
deriving Repr, DecidableEq

/-- Process block of an OCI runtime spec; only the field the builder
inspects (the apparmor profile) is carried. -/
structure Process where
  apparmor_profile : Option String
deriving Repr, DecidableEq

/-- OCI runtime spec as consumed by the builder: version string, optional
root block, optional process block, optional annotations. -/
structure Spec where
  version : String
  root : Option Root
  process : Option Process
  annotations : Option (List (String × String))
deriving Repr, DecidableEq

/-- Modelled from the spec: the Container State Entity (container.rs is not
part of the visible source).  Identity, status, pid, bundle path, state
directory, plus the mutable metadata the builder sets (systemd flag,
annotations). -/
structure Container where
  id : String
  status : ContainerStatus
  pid : Option Int
  bundle : String
  state_dir : String
  use_systemd : Option Bool
  annotations : Option (List (String × String))
deriving Repr, DecidableEq

/-- Modelled from the spec: Container construction with the given identity,
status, pid, bundle and state-dir paths; systemd flag and annotations are
not yet set. -/
def Container.new (id : String) (status : ContainerStatus) (pid : Option Int)
    (bundle : String) (state_dir : String) : Container :=
  { id := id, status := status, pid := pid, bundle := bundle,
    state_dir := state_dir, use_systemd := none, annotations := none }

/-- Modelled from the spec: in-memory mutation of the systemd-cgroups flag. -/
def Container.set_systemd (c : Container) (b : Bool) : Container :=
  { c with use_systemd := some b }

/-- Modelled from the spec: in-memory mutation of the annotations. -/
def Container.set_annotations (c : Container)
    (a : Option (List (String × String))) : Container :=
  { c with annotations := a }

/-- Modelled from the spec: the chosen process-spawning abstraction; its
payload is irrelevant to the builder, which only forwards it. -/
structure SyscallChoice
deriving Repr, DecidableEq

/-- Modelled from the spec: rootless configuration carrying UID/GID mapping
data; the builder only forwards it, so the payload is not modelled. -/
structure Rootless
deriving Repr, DecidableEq

/-- Modelled from the spec: the derived runtime configuration persisted
into the state directory; the builder only derives and saves it, so the
payload is not modelled. -/
structure YoukiConfig
deriving Repr, DecidableEq

/-- Marker distinguishing an initial container from a tenant process
(process/args.rs). -/
inductive ContainerType
  | InitContainer
  | TenantContainer
deriving Repr, DecidableEq

/-- Base builder configuration (container/builder.rs is not part of the
visible source; fields are the ones init_builder.rs reads). -/
structure ContainerBuilder where
  container_id : String
  root_path : String
  console_socket : Option String
  pid_file : Option String
  preserve_fds : Int
  syscall : SyscallChoice
deriving Repr, DecidableEq

/-- Builder for a new init container (init_builder.rs lines 20-24). -/
structure InitContainerBuilder where
  base : ContainerBuilder
  bundle : String
  use_systemd : Bool
deriving Repr, DecidableEq

/-- Generates the base configuration for a new container
(init_builder.rs lines 29-35): systemd-cgroups usage defaults to true. -/
def InitContainerBuilder.new (builder : ContainerBuilder) (bundle : String) :
    InitContainerBuilder :=
  { base := builder, bundle := bundle, use_systemd := true }

/-- Sets if systemd should be used for managing cgroups
(init_builder.rs lines 38-41). -/
def InitContainerBuilder.with_systemd (self : InitContainerBuilder)
    (should_use : Bool) : InitContainerBuilder :=
  { self with use_systemd := should_use }

/-- Input record handed to the construction backend
(init_builder.rs lines 80-94). -/
structure ContainerBuilderImpl where
  container_type : ContainerType
  syscall : SyscallChoice
  container_id : String
  pid_file : Option String
  console_socket : Option Int
  use_systemd : Bool
  spec : Spec
  rootfs : String
  rootless : Option Rootless
  notify_path : String
  container : Option Container
  preserve_fds : Int
  detached : Bool
deriving Repr, DecidableEq

/-- Observable effects of one build: filesystem mutations, the working
directory change, and the construction-backend invocation. -/
inductive Event
  | DirCreated (path : String)
  | StateSaved (c : Container)
  | ChdirTo (path : String)
  | ConsoleSocketSetup (dir : String) (socket : String)
  | ConfigSaved (cfg : YoukiConfig) (dir : String)
  | BackendCreate (inputs : ContainerBuilderImpl)
deriving Repr, DecidableEq

/-- Path join, modelling PathBuf join for the paths the builder builds. -/
def pathJoin (a b : String) : String := a ++ "/" ++ b

/-- Modelled from the spec: name of the notification file used for
init-process synchronization (notify_socket.rs is not part of the visible
source). -/
def NOTIFY_FILE : String := "notify.sock"

/-- Environment of one build: the outcome of every external call the
builder makes, indexed by the arguments the builder passes. -/
structure World where
  spec_load : String → Except BErr Spec
  apparmor_is_enabled : Except BErr Bool
  canonicalize_rootfs : Spec → String → Except BErr Spec
  dir_exists : String → Bool
  create_dir_all : String → Except BErr Unit
  container_new : Except BErr Unit
  container_save : Container → Except BErr Unit
  chdir : String → Except BErr Unit
  fs_canonicalize : String → Except BErr String
  setup_console_socket : String → String → String → Except BErr Int
  rootless_new : Spec → Except BErr (Option Rootless)
  config_from_spec : Spec → String → Bool → Except BErr YoukiConfig
  config_save : YoukiConfig → String → Except BErr Unit
  backend_create : ContainerBuilderImpl → Except BErr Unit
  refresh_state : Container → Except BErr Container

/-- Result of a build step: an anyhow-style result plus the trace of events
it produced, in order. -/
abbrev EvM (α : Type) : Type := Except BErr α × List Event

/-- Sequencing of build steps: a failed step aborts everything after it and
keeps the events produced so far. -/
def EvM.bind {α β : Type} (x : EvM α) (f : α → EvM β) : EvM β :=
  match x.1 with
  | Except.ok a => ((f a).1, x.2 ++ (f a).2)
  | Except.error e => (Except.error e, x.2)

/-- A pure step: no events, no failure. -/
def EvM.pure {α : Type} (a : α) : EvM α := (Except.ok a, [])

/-- Lift an external call result into a step with no events. -/
def liftE {α : Type} (x : Except BErr α) : EvM α := (x, [])

/-- Record one observable event. -/
def emit (e : Event) : EvM Unit := (Except.ok (), [e])

/-- bail with a fresh error carrying the given base message. -/
def failWith {α : Type} (msg : String) : EvM α :=
  (Except.error { ctx := [], base := msg }, [])

/-- anyhow context on a step: wraps the error, keeps the events. -/
def EvM.context {α : Type} (s : String) (x : EvM α) : EvM α :=
  match x.1 with
  | Except.ok a => (Except.ok a, x.2)
  | Except.error e => (Except.error (e.withContext s), x.2)

/-- starts_with on strings, as a computable character-list test
(same semantics as the string prefix test the source uses). -/
def strStartsWith (s p : String) : Bool := p.data.isPrefixOf s.data

/-- Error message for an incompatible spec version
(init_builder.rs lines 127-130). -/
def versionErrMsg (v : String) : String :=
  "runtime spec has incompatible version " ++ v ++ ". Only 1.0.X is supported"

/-- Error message for an apparmor profile requested while apparmor is
disabled on the host (init_builder.rs lines 136-140). -/
def apparmorErrMsg (profile : String) : String :=
  "apparmor profile " ++ profile ++
    " is specified in runtime spec, but apparmor is not activated on this system"

/-- Error message for a duplicate container id (init_builder.rs line 107). -/
def alreadyExistsMsg (id : String) : String :=
  "container " ++ id ++ " already exists"

/-- validate_spec (init_builder.rs lines 125-146): version must start with
1.0; if the process block names an apparmor profile, the host probe must
report apparmor enabled. -/
def InitContainerBuilder.validate_spec (w : World) (spec : Spec) :
    Except BErr Unit :=
  if !(strStartsWith spec.version ("1.0")) then
    Except.error { ctx := [], base := versionErrMsg spec.version }
  else
    match spec.process with
    | some process =>
      match process.apparmor_profile with
      | some profile =>
        match w.apparmor_is_enabled with
        | Except.error e => Except.error e
        | Except.ok enabled =>
          if !enabled then
            Except.error { ctx := [], base := apparmorErrMsg profile }
          else
            Except.ok ()
      | none => Except.ok ()
    | none => Except.ok ()

/-- load_spec (init_builder.rs lines 115-123): load bundle/config.json,
validate it, canonicalize its rootfs path. -/
def InitContainerBuilder.load_spec (self : InitContainerBuilder) (w : World) :
    EvM Spec :=
  let source_spec_path := pathJoin self.bundle ("config.json")
  EvM.bind (liftE (w.spec_load source_spec_path)) fun spec =>
  EvM.bind (EvM.context ("failed to validate runtime spec")
    (liftE (InitContainerBuilder.validate_spec w spec))) fun _ =>
  EvM.context ("failed to canonicalize rootfs")
    (liftE (w.canonicalize_rootfs spec self.bundle))

/-- create_container_dir (init_builder.rs lines 102-113): bail if
root_path/id already exists, otherwise create it. -/
def InitContainerBuilder.create_container_dir (self : InitContainerBuilder)
    (w : World) : EvM String :=
  let container_dir := pathJoin self.base.root_path self.base.container_id
  if w.dir_exists container_dir then
    failWith (alreadyExistsMsg self.base.container_id)
  else
    EvM.bind (EvM.context ("failed to create container dir")
      (liftE (w.create_dir_all container_dir))) fun _ =>
    EvM.bind (emit (Event.DirCreated container_dir)) fun _ =>
    EvM.pure container_dir

/-- create_container_state (init_builder.rs lines 148-158): construct the
Container with status Creating and no pid and save it immediately. -/
def InitContainerBuilder.create_container_state (self : InitContainerBuilder)
    (w : World) (container_dir : String) : EvM Container :=
  EvM.bind (liftE w.container_new) fun _ =>
  let container := Container.new self.base.container_id
    ContainerStatus.Creating none self.bundle container_dir
  EvM.bind (liftE (w.container_save container)) fun _ =>
  EvM.bind (emit (Event.StateSaved container)) fun _ =>
  EvM.pure container

/-- build (init_builder.rs lines 44-100): the full creation sequence, in
source order, with the same context wrappings. -/
def InitContainerBuilder.build (self : InitContainerBuilder) (w : World) :
    EvM Container :=
  EvM.bind (EvM.context ("failed to load spec")
    (self.load_spec w)) fun spec =>
  EvM.bind (EvM.context ("failed to create container dir")
    (self.create_container_dir w)) fun container_dir =>
  EvM.bind (EvM.context ("failed to create container state")
    (self.create_container_state w container_dir)) fun container0 =>
  let container := (container0.set_systemd self.use_systemd).set_annotations
    spec.annotations
  EvM.bind (EvM.bind (liftE (w.chdir container_dir)) fun _ =>
    emit (Event.ChdirTo container_dir)) fun _ =>
  let notify_path := pathJoin container_dir NOTIFY_FILE
  EvM.bind (match spec.root with
    | none => failWith ("no root in spec")
    | some root => liftE (w.fs_canonicalize root.path)) fun rootfs =>
  EvM.bind (match self.base.console_socket with
    | some console_socket =>
      EvM.bind (liftE (w.setup_console_socket container_dir console_socket
        ("console-socket"))) fun fd =>
      EvM.bind (emit (Event.ConsoleSocketSetup container_dir
        console_socket)) fun _ =>
      EvM.pure (some fd)
    | none => EvM.pure (none : Option Int)) fun csocketfd =>
  EvM.bind (liftE (w.rootless_new spec)) fun rootless =>
  EvM.bind (liftE (w.config_from_spec spec container.id
    rootless.isSome)) fun config =>
  EvM.bind (EvM.context ("failed to save config")
    (liftE (w.config_save config container_dir))) fun _ =>
  EvM.bind (emit (Event.ConfigSaved config container_dir)) fun _ =>
  let builder_impl : ContainerBuilderImpl := {
    container_type := ContainerType.InitContainer,
    syscall := self.base.syscall,
    container_id := self.base.container_id,
    pid_file := self.base.pid_file,
    console_socket := csocketfd,
    use_systemd := self.use_systemd,
    spec := spec,
    rootfs := rootfs,
    rootless := rootless,
    notify_path := notify_path,
    container := some container,
    preserve_fds := self.base.preserve_fds,
    detached := false }
  EvM.bind (emit (Event.BackendCreate builder_impl)) fun _ =>
  EvM.bind (liftE (w.backend_create builder_impl)) fun _ =>
  EvM.bind (liftE (w.refresh_state container)) fun refreshed =>
  EvM.bind (emit (Event.StateSaved refreshed)) fun _ =>
  EvM.pure refreshed

/-- true when the result is an error. -/
def isErr {α : Type} : Except BErr α → Bool
  | Except.error _ => true
  | Except.ok _ => false

/-- true when no construction-backend invocation occurs in the trace
before a persisted state record with status Creating and no pid: scanning
left to right, the scan fails on a backend invocation, succeeds at the
first Creating/no-pid persistence, and succeeds on traces where the
backend is never invoked. -/
def savedBeforeBackend : List Event → Bool
  | [] => true
  | e :: rest =>
    match e with
    | Event.BackendCreate _ => false
    | Event.StateSaved c =>
      match c.status, c.pid with
      | ContainerStatus.Creating, none => true
      | _, _ => savedBeforeBackend rest
    | _ => savedBeforeBackend rest

/-- true when every backend invocation in the trace carries detached = false. -/
def detachedAlwaysFalse (es : List Event) : Bool :=
  es.all fun e =>
    match e with
    | Event.BackendCreate inputs => !inputs.detached
    | _ => true

/-- true when the trace contains no backend invocation at all. -/
def noBackendInvoked (es : List Event) : Bool :=
  es.all fun e =>
    match e with
    | Event.BackendCreate _ => false
    | _ => true

/-- true when every persisted state record in the trace has status Creating. -/
def allSavesCreating (es : List Event) : Bool :=
  es.all fun e =>
    match e with
    | Event.StateSaved c =>
      (match c.status with
       | ContainerStatus.Creating => true
       | _ => false)
    | _ => true

/-- Sample base builder configuration used by concrete witnesses. -/
def sampleBase : ContainerBuilder :=
  { container_id := "c1", root_path := "/run/containers",
    console_socket := none, pid_file := none, preserve_fds := 0,
    syscall := SyscallChoice.mk }

/-- Sample init builder: id c1, root /run/containers, bundle /bundle. -/
def sampleBuilder : InitContainerBuilder :=
  InitContainerBuilder.new sampleBase ("/bundle")

/-- Sample minimal valid spec with version 1.0.2 and no process block. -/
def sampleSpec : Spec :=
  { version := "1.0.2", root := some { path := "rootfs", readonly := none },
    process := none, annotations := none }

/-- Environment in which every external call succeeds and the loaded spec
is the given one. -/
def okWorld (s : Spec) : World :=
  { spec_load := fun _ => Except.ok s,
    apparmor_is_enabled := Except.ok true,
    canonicalize_rootfs := fun sp _ => Except.ok sp,
    dir_exists := fun _ => false,
    create_dir_all := fun _ => Except.ok (),
    container_new := Except.ok (),
    container_save := fun _ => Except.ok (),
    chdir := fun _ => Except.ok (),
    fs_canonicalize := fun p => Except.ok p,
    setup_console_socket := fun _ _ _ => Except.ok 5,
    rootless_new := fun _ => Except.ok none,
    config_from_spec := fun _ _ _ => Except.ok YoukiConfig.mk,
    config_save := fun _ _ => Except.ok (),
    backend_create := fun _ => Except.ok (),
    refresh_state := fun c => Except.ok c }

/-- Spec whose version 1.01 starts with 1.0 but is not of the form 1.0.x. -/
def s3cex : Spec :=
  { version := "1.01", root := some { path := "rootfs", readonly := none },
    process := none, annotations := none }

/-- All-success environment loading the version-1.01 spec. -/
def w3cex : World := okWorld s3cex

/-- Spec with version 0.9, rejected by the version check. -/
def s3wit : Spec :=
  { version := "0.9", root := some { path := "rootfs", readonly := none },
    process := none, annotations := none }

/-- Spec with version 0.9 that also names an apparmor profile. -/
def s4cex : Spec :=
  { version := "0.9", root := some { path := "rootfs", readonly := none },
    process := some { apparmor_profile := some "docker-default" },
    annotations := none }

/-- Environment loading the version-0.9 profile-bearing spec while the
host reports apparmor disabled. -/
def w4cex : World :=
  { okWorld s4cex with apparmor_is_enabled := Except.ok false }

/-- Valid-version spec that names an apparmor profile. -/
def s4wit : Spec :=
  { version := "1.0.2", root := some { path := "rootfs", readonly := none },
    process := some { apparmor_profile := some "docker-default" },
    annotations := none }

/-- Environment loading the profile-bearing spec while the host reports
apparmor disabled. -/
def w4wit : World :=
  { okWorld s4wit with apparmor_is_enabled := Except.ok false }

/-- Environment where the state directory pre-exists and the bundle spec
is unreadable. -/
def w2cex : World :=
  { okWorld sampleSpec with
      spec_load := fun _ => Except.error { ctx := [], base := "io error" },
      dir_exists := fun _ => true }

/-- Environment where the spec loads fine but the state directory
pre-exists. -/
def w2wit : World :=
  { okWorld sampleSpec with dir_exists := fun _ => true }

/-- Environment where deriving the runtime configuration always fails. -/
def w5wit : World :=
  { okWorld sampleSpec with
      config_from_spec := fun _ _ _ =>
        Except.error { ctx := [], base := "config derivation failed" } }

/-- Environment where changing the working directory fails. -/
def w6cex : World :=
  { okWorld sampleSpec with
      chdir := fun _ => Except.error { ctx := [], base := "EPERM" } }

/-- Spec with a 1.0-prefixed version that is not 1.0.x and no process
block. -/
def s9wit : Spec :=
  { version := "1.01", root := none, process := none, annotations := none }

/-- Valid-version spec with no root block. -/
def s10wit : Spec :=
  { version := "1.0.2", root := none, process := none, annotations := none }

/-- Console-socket setup event produced by a successful build prefix: one
setup event when a console socket was requested, none otherwise. -/
def consoleTrace (self : InitContainerBuilder) : List Event :=
  match self.base.console_socket with
  | some cs => [Event.ConsoleSocketSetup
      (pathJoin self.base.root_path self.base.container_id) cs]
  | none => []

/-- Environment where persisting the container state fails. -/
def w6savefail : World :=
  { okWorld sampleSpec with
      container_save := fun _ =>
        Except.error { ctx := [], base := "disk full" } }

theorem EvM.bind_of_error {α β : Type} {x : EvM α} {e : BErr}
    (f : α → EvM β) (h : x.1 = Except.error e) :
    EvM.bind x f = (Except.error e, x.2) := by
  simp [EvM.bind, h]

theorem EvM.bind_of_ok {α β : Type} {x : EvM α} {a : α}
    (f : α → EvM β) (h : x.1 = Except.ok a) :
    EvM.bind x f = ((f a).1, x.2 ++ (f a).2) := by
  simp [EvM.bind, h]

theorem EvM.context_fst_error {α : Type} {x : EvM α} {e : BErr} (s : String)
    (h : x.1 = Except.error e) :
    (EvM.context s x).1 = Except.error (e.withContext s) := by
  simp [EvM.context, h]

theorem EvM.context_fst_ok {α : Type} {x : EvM α} {a : α} (s : String)
    (h : x.1 = Except.ok a) : (EvM.context s x).1 = Except.ok a := by
  simp [EvM.context, h]

@[simp] theorem EvM.context_snd {α : Type} (s : String) (x : EvM α) :
    (EvM.context s x).2 = x.2 := by
  simp only [EvM.context]
  split <;> rfl

@[simp] theorem liftE_fst {α : Type} (x : Except BErr α) : (liftE x).1 = x := rfl

@[simp] theorem liftE_snd {α : Type} (x : Except BErr α) : (liftE x).2 = [] := rfl

@[simp] theorem emit_fst (e : Event) : (emit e).1 = Except.ok () := rfl

@[simp] theorem emit_snd (e : Event) : (emit e).2 = [e] := rfl

@[simp] theorem EvM.bind_pair_ok {α β : Type} (a : α) (es : List Event)
    (f : α → EvM β) :
    EvM.bind (Except.ok a, es) f = ((f a).1, es ++ (f a).2) := rfl

@[simp] theorem EvM.bind_pair_error {α β : Type} (e : BErr) (es : List Event)
    (f : α → EvM β) :
    EvM.bind ((Except.error e : Except BErr α), es) f =
      (Except.error e, es) := rfl

@[simp] theorem EvM.context_pair_ok {α : Type} (s : String) (a : α)
    (es : List Event) :
    EvM.context s (Except.ok a, es) = (Except.ok a, es) := rfl

@[simp] theorem EvM.context_pair_error {α : Type} (s : String) (e : BErr)
    (es : List Event) :
    EvM.context s ((Except.error e : Except BErr α), es) =
      (Except.error (e.withContext s), es) := rfl

/-- The spec-loading step performs no observable mutation. -/
theorem load_spec_trace (self : InitContainerBuilder) (w : World) :
    (self.load_spec w).2 = [] := by
  unfold InitContainerBuilder.load_spec
  simp only [EvM.bind, EvM.context, liftE]
  repeat' split
  all_goals rfl

/-- create_container_dir either fails having produced no event, or returns
the computed directory having created exactly it. -/
theorem create_container_dir_cases (self : InitContainerBuilder) (w : World) :
    (∃ e, self.create_container_dir w = (Except.error e, [])) ∨
    self.create_container_dir w =
      (Except.ok (pathJoin self.base.root_path self.base.container_id),
       [Event.DirCreated (pathJoin self.base.root_path
         self.base.container_id)]) := by
  unfold InitContainerBuilder.create_container_dir
  cases hex : w.dir_exists (pathJoin self.base.root_path self.base.container_id)
  · cases hcd : w.create_dir_all (pathJoin self.base.root_path
      self.base.container_id) with
    | error err =>
      exact Or.inl ⟨err.withContext ("failed to create container dir"),
        by simp [hex, hcd, EvM.bind, EvM.context, liftE, failWith]⟩
    | ok u =>
      exact Or.inr (by
        simp [hex, hcd, EvM.bind, EvM.context, liftE, EvM.pure, emit])
  · exact Or.inl ⟨{ ctx := [], base := alreadyExistsMsg self.base.container_id },
      by simp [hex, failWith]⟩

/-- create_container_state either fails having produced no event, or
returns the freshly constructed Creating container having persisted
exactly it. -/
theorem create_container_state_cases (self : InitContainerBuilder) (w : World)
    (dir : String) :
    (∃ e, self.create_container_state w dir = (Except.error e, [])) ∨
    self.create_container_state w dir =
      (Except.ok (Container.new self.base.container_id
        ContainerStatus.Creating none self.bundle dir),
       [Event.StateSaved (Container.new self.base.container_id
        ContainerStatus.Creating none self.bundle dir)]) := by
  unfold InitContainerBuilder.create_container_state
  cases hn : w.container_new with
  | error err => exact Or.inl ⟨err, by simp [hn, EvM.bind, liftE]⟩
  | ok u =>
    cases hs : w.container_save (Container.new self.base.container_id
      ContainerStatus.Creating none self.bundle dir) with
    | error err => exact Or.inl ⟨err, by simp [hn, hs, EvM.bind, liftE]⟩
    | ok u2 => exact Or.inr (by simp [hn, hs, EvM.bind, liftE, EvM.pure, emit])

theorem EvM.all_bind {α β : Type} {p : Event → Bool} {x : EvM α}
    {f : α → EvM β} (hx : x.2.all p = true)
    (hf : ∀ a, ((f a).2.all p) = true) :
    ((EvM.bind x f).2.all p) = true := by
  cases h : x.1 <;> simp [EvM.bind, h, List.all_append, hx, hf]

theorem EvM.all_context {α : Type} {p : Event → Bool} (s : String) {x : EvM α}
    (hx : x.2.all p = true) : ((EvM.context s x).2.all p) = true := by
  simpa [EvM.context_snd] using hx

/-- C1: on every build invocation, whenever the construction backend is
invoked, a Container State Entity with status Creating and no pid has been
persisted to the state directory strictly earlier in the trace; the
backend is never invoked before that persistence. -/
theorem build_persists_creating_state_before_backend
    (self : InitContainerBuilder) (w : World) :
    savedBeforeBackend (self.build w).2 = true := by
  unfold InitContainerBuilder.build
  cases hls : (self.load_spec w).1 with
  | error e =>
    rw [EvM.bind_of_error _ (EvM.context_fst_error _ hls)]
    simp [load_spec_trace, savedBeforeBackend]
  | ok spec =>
    rw [EvM.bind_of_ok _ (EvM.context_fst_ok _ hls)]
    simp only [EvM.context_snd, load_spec_trace, List.nil_append]
    rcases create_container_dir_cases self w with ⟨e, hcd⟩ | hcd
    · rw [EvM.bind_of_error _ (EvM.context_fst_error _ (by rw [hcd]))]
      simp [hcd, savedBeforeBackend]
    · rw [EvM.bind_of_ok _ (EvM.context_fst_ok _ (by rw [hcd]))]
      simp only [hcd]
      rcases create_container_state_cases self w
        (pathJoin self.base.root_path self.base.container_id) with
        ⟨e, hcs⟩ | hcs
      · rw [EvM.bind_of_error _ (EvM.context_fst_error _ (by rw [hcs]))]
        simp [hcs, savedBeforeBackend]
      · rw [EvM.bind_of_ok _ (EvM.context_fst_ok _ (by rw [hcs]))]
        simp [hcs, savedBeforeBackend, Container.new]

/-- C7: whenever the construction backend is invoked by build, the
detached flag handed to it is the fixed value false, for every builder
configuration and every environment. -/
theorem build_backend_detached_flag_always_false
    (self : InitContainerBuilder) (w : World) :
    detachedAlwaysFalse (self.build w).2 = true := by
  simp only [detachedAlwaysFalse, InitContainerBuilder.build,
    InitContainerBuilder.load_spec, InitContainerBuilder.create_container_dir,
    InitContainerBuilder.create_container_state]
  repeat'
    first
    | apply EvM.all_bind
    | apply EvM.all_context
    | intro a
    | split
  all_goals simp [liftE, emit, failWith, EvM.pure]

/-- C8: with_systemd is a pure configuration mutator that only replaces
the use_systemd field, leaving base and bundle unchanged, and a freshly
constructed InitContainerBuilder has use_systemd defaulted to true. -/
theorem with_systemd_pure_mutator_and_new_defaults_systemd_enabled :
    (∀ (self : InitContainerBuilder) (b : Bool),
      (self.with_systemd b).use_systemd = b ∧
      (self.with_systemd b).base = self.base ∧
      (self.with_systemd b).bundle = self.bundle) ∧
    (∀ (builder : ContainerBuilder) (bundle : String),
      (InitContainerBuilder.new builder bundle).use_systemd = true) :=
  ⟨fun _ _ => ⟨rfl, rfl, rfl⟩, fun _ _ => rfl⟩

/-- C9: the version validation is a prefix test: for a spec with no
process block, validate_spec succeeds exactly when the version string
starts with the characters 1.0, so versions such as 1.01 or 1.0-custom
pass the check although they are not of the form 1.0.x. -/
theorem validate_spec_version_check_accepts_any_1_0_extension
    (w : World) (s : Spec) (h : s.process = none) :
    (InitContainerBuilder.validate_spec w s = Except.ok () ↔
      strStartsWith s.version ("1.0") = true) := by
  unfold InitContainerBuilder.validate_spec
  cases hv : strStartsWith s.version ("1.0") <;> simp [h, hv]

/-- C9 witness: a concrete spec with version 1.01 and no process block
passes validate_spec. -/
theorem validate_spec_version_check_accepts_any_1_0_extension_witness :
    InitContainerBuilder.validate_spec (okWorld sampleSpec) s9wit =
      Except.ok () :=
  (validate_spec_version_check_accepts_any_1_0_extension (okWorld sampleSpec)
    s9wit rfl).mpr (by decide)

/-- C3 counterexample: version 1.01 is not of the form 1.0.x, yet a build
on a spec with that version succeeds, so build does not fail for every
version other than 1.0.x. -/
theorem build_accepts_version_1_01 :
    s3cex.version = "1.01" ∧
    isErr (sampleBuilder.build w3cex).1 = false := ⟨rfl, rfl⟩

/-- C3 amended: for every spec whose version does not start with 1.0,
build fails with the version-incompatibility error (wrapped with the
load and validate contexts) and produces no event, so no state directory
is created. -/
theorem build_incompatible_version_fails_before_dir_creation
    (self : InitContainerBuilder) (w : World) (s : Spec)
    (hload : w.spec_load (pathJoin self.bundle ("config.json")) = Except.ok s)
    (hv : strStartsWith s.version ("1.0") = false) :
    self.build w =
      (Except.error { ctx := ["failed to load spec",
        "failed to validate runtime spec"], base := versionErrMsg s.version },
       []) := by
  simp [InitContainerBuilder.build, InitContainerBuilder.load_spec,
    InitContainerBuilder.validate_spec, liftE, hload, hv, BErr.withContext]

/-- C3 witness: a build on a spec with version 0.9 fails with the
version-incompatibility error and an empty trace. -/
theorem build_incompatible_version_fails_before_dir_creation_witness :
    sampleBuilder.build (okWorld s3wit) =
      (Except.error { ctx := ["failed to load spec",
        "failed to validate runtime spec"], base := versionErrMsg ("0.9") },
       []) :=
  build_incompatible_version_fails_before_dir_creation sampleBuilder
    (okWorld s3wit) s3wit rfl (by decide)

/-- C2 counterexample: when the state directory pre-exists but the bundle
spec is unreadable, build fails with the spec-load error, not with the
container-already-exists conflict error. -/
theorem build_existing_dir_with_unreadable_spec_fails_without_conflict_error :
    w2cex.dir_exists (pathJoin ("/run/containers") ("c1")) = true ∧
    sampleBuilder.build w2cex =
      (Except.error { ctx := ["failed to load spec"], base := "io error" },
       []) ∧
    ("io error" : String) ≠ alreadyExistsMsg ("c1") := by
  refine ⟨rfl, rfl, ?_⟩
  decide

/-- C2 amended: when the spec loads and validates successfully and the
state directory root_path/id already exists, build fails with the conflict
error whose base message is container id already exists (wrapped with the
create-dir context) and produces no event, leaving the existing directory
unmodified. -/
theorem build_existing_dir_conflict_error_no_mutation
    (self : InitContainerBuilder) (w : World) (s s2 : Spec)
    (hload : w.spec_load (pathJoin self.bundle ("config.json")) = Except.ok s)
    (hval : InitContainerBuilder.validate_spec w s = Except.ok ())
    (hcanon : w.canonicalize_rootfs s self.bundle = Except.ok s2)
    (hexists : w.dir_exists (pathJoin self.base.root_path
      self.base.container_id) = true) :
    self.build w =
      (Except.error { ctx := ["failed to create container dir"],
                      base := alreadyExistsMsg self.base.container_id },
       []) := by
  simp [InitContainerBuilder.build, InitContainerBuilder.load_spec,
    InitContainerBuilder.create_container_dir, liftE, failWith,
    hload, hval, hcanon, hexists, BErr.withContext]

/-- C2 witness: with a loadable valid spec and a pre-existing directory,
build fails with the conflict error and an empty trace. -/
theorem build_existing_dir_conflict_error_no_mutation_witness :
    sampleBuilder.build w2wit =
      (Except.error { ctx := ["failed to create container dir"],
                      base := alreadyExistsMsg ("c1") },
       []) :=
  build_existing_dir_conflict_error_no_mutation sampleBuilder w2wit
    sampleSpec sampleSpec rfl rfl rfl rfl

/-- C4 counterexample: a spec that names an apparmor profile while the
host reports apparmor disabled, but whose version is 0.9, makes build fail
with the version error rather than the profile-unsupported error. -/
theorem build_apparmor_disabled_with_bad_version_reports_version_error :
    s4cex.process = some { apparmor_profile := some "docker-default" } ∧
    w4cex.apparmor_is_enabled = Except.ok false ∧
    sampleBuilder.build w4cex =
      (Except.error { ctx := ["failed to load spec",
        "failed to validate runtime spec"], base := versionErrMsg ("0.9") },
       []) ∧
    versionErrMsg ("0.9") ≠ apparmorErrMsg ("docker-default") := by
  refine ⟨rfl, rfl, rfl, ?_⟩
  decide

/-- C4 amended: for every spec that passes the version check, names an
apparmor profile, and is loaded while the host reports apparmor disabled,
build fails with the profile-unsupported error and produces no event, so
no state directory is created and no process is spawned. -/
theorem build_apparmor_disabled_fails_before_dir_creation
    (self : InitContainerBuilder) (w : World) (s : Spec) (p : Process)
    (profile : String)
    (hload : w.spec_load (pathJoin self.bundle ("config.json")) = Except.ok s)
    (hv : strStartsWith s.version ("1.0") = true)
    (hp : s.process = some p)
    (hprof : p.apparmor_profile = some profile)
    (ha : w.apparmor_is_enabled = Except.ok false) :
    self.build w =
      (Except.error { ctx := ["failed to load spec",
        "failed to validate runtime spec"], base := apparmorErrMsg profile },
       []) := by
  simp [InitContainerBuilder.build, InitContainerBuilder.load_spec,
    InitContainerBuilder.validate_spec, liftE, hload, hv, hp, hprof, ha,
    BErr.withContext]

/-- C4 witness: a valid-version spec naming an apparmor profile, on a host
reporting apparmor disabled, fails with the profile-unsupported error and
an empty trace. -/
theorem build_apparmor_disabled_fails_before_dir_creation_witness :
    sampleBuilder.build w4wit =
      (Except.error { ctx := ["failed to load spec",
                              "failed to validate runtime spec"],
                      base := apparmorErrMsg ("docker-default") },
       []) :=
  build_apparmor_disabled_fails_before_dir_creation sampleBuilder w4wit
    s4wit { apparmor_profile := some "docker-default" } ("docker-default")
    rfl (by decide) rfl rfl rfl

/-- C5: whenever derivation of the runtime configuration always fails, or
persisting it always fails, build returns an error, the construction
backend is never invoked, and every state record persisted during the
build has status Creating, so the container is never marked successfully
created. -/
theorem build_config_failure_aborts_before_backend_status_stays_creating
    (self : InitContainerBuilder) (w : World)
    (h : (∀ s i b, isErr (w.config_from_spec s i b) = true) ∨
         (∀ cfg d, isErr (w.config_save cfg d) = true)) :
    isErr (self.build w).1 = true ∧
    noBackendInvoked (self.build w).2 = true ∧
    allSavesCreating (self.build w).2 = true := by
  simp only [InitContainerBuilder.build, InitContainerBuilder.load_spec,
    InitContainerBuilder.create_container_dir,
    InitContainerBuilder.create_container_state, liftE]
  cases hsl : w.spec_load (pathJoin self.bundle ("config.json")) with
  | error e => simp [isErr, noBackendInvoked, allSavesCreating]
  | ok s =>
  simp only [EvM.bind_pair_ok, EvM.bind_pair_error, EvM.context_pair_ok,
    EvM.context_pair_error]
  cases hv : InitContainerBuilder.validate_spec w s with
  | error e => simp [isErr, noBackendInvoked, allSavesCreating]
  | ok u =>
  simp only [EvM.bind_pair_ok, EvM.bind_pair_error, EvM.context_pair_ok,
    EvM.context_pair_error, List.nil_append]
  cases hcr : w.canonicalize_rootfs s self.bundle with
  | error e => simp [isErr, noBackendInvoked, allSavesCreating]
  | ok s2 =>
  simp only [EvM.bind_pair_ok, EvM.bind_pair_error, EvM.context_pair_ok,
    EvM.context_pair_error, List.nil_append]
  cases hex : w.dir_exists (pathJoin self.base.root_path
      self.base.container_id) with
  | true => simp [hex, failWith, isErr, noBackendInvoked, allSavesCreating]
  | false =>
  simp only [hex, Bool.false_eq_true, if_false, reduceIte]
  cases hcd : w.create_dir_all (pathJoin self.base.root_path
      self.base.container_id) with
  | error e => simp [isErr, noBackendInvoked, allSavesCreating, emit, EvM.pure]
  | ok u2 =>
  simp only [EvM.bind_pair_ok, EvM.bind_pair_error, EvM.context_pair_ok,
    EvM.context_pair_error, emit, EvM.pure, List.nil_append]
  cases hcn : w.container_new with
  | error e => simp [isErr, noBackendInvoked, allSavesCreating]
  | ok u3 =>
  simp only [EvM.bind_pair_ok, EvM.bind_pair_error, List.nil_append]
  cases hsv : w.container_save (Container.new self.base.container_id
      ContainerStatus.Creating none self.bundle
      (pathJoin self.base.root_path self.base.container_id)) with
  | error e => simp [isErr, noBackendInvoked, allSavesCreating]
  | ok u4 =>
  simp only [EvM.bind_pair_ok, EvM.bind_pair_error, EvM.context_pair_ok,
    EvM.context_pair_error, emit, EvM.pure, List.nil_append]
  cases hch : w.chdir (pathJoin self.base.root_path self.base.container_id) with
  | error e =>
    simp [isErr, noBackendInvoked, allSavesCreating, Container.new]
  | ok u5 =>
  simp only [EvM.bind_pair_ok, EvM.bind_pair_error, emit, EvM.pure,
    List.nil_append]
  cases hroot : s2.root with
  | none =>
    simp [failWith, isErr, noBackendInvoked, allSavesCreating, Container.new]
  | some root =>
  simp only [EvM.bind_pair_ok, EvM.bind_pair_error, List.nil_append]
  cases hfc : w.fs_canonicalize root.path with
  | error e =>
    simp [isErr, noBackendInvoked, allSavesCreating, Container.new]
  | ok rootfs =>
  simp only [EvM.bind_pair_ok, EvM.bind_pair_error, List.nil_append]
  cases hcso : self.base.console_socket with
  | some cs =>
    simp only [EvM.bind_pair_ok, EvM.bind_pair_error, List.nil_append]
    cases hscs : w.setup_console_socket
        (pathJoin self.base.root_path self.base.container_id) cs
        ("console-socket") with
    | error e =>
      simp [isErr, noBackendInvoked, allSavesCreating, Container.new]
    | ok fd =>
    simp only [EvM.bind_pair_ok, EvM.bind_pair_error, emit, EvM.pure,
      List.nil_append]
    cases hrl : w.rootless_new s2 with
    | error e =>
      simp [isErr, noBackendInvoked, allSavesCreating, Container.new]
    | ok rootless =>
    simp only [EvM.bind_pair_ok, EvM.bind_pair_error, List.nil_append]
    rcases h with hfs | hsave
    · cases hq : w.config_from_spec s2
          (((Container.new self.base.container_id ContainerStatus.Creating none
            self.bundle (pathJoin self.base.root_path
              self.base.container_id)).set_systemd
            self.use_systemd).set_annotations s2.annotations).id
          rootless.isSome with
      | error e =>
        simp [isErr, noBackendInvoked, allSavesCreating, Container.new]
      | ok cfg =>
        have hcontra := hfs s2
          (((Container.new self.base.container_id ContainerStatus.Creating none
            self.bundle (pathJoin self.base.root_path
              self.base.container_id)).set_systemd
            self.use_systemd).set_annotations s2.annotations).id
          rootless.isSome
        rw [hq] at hcontra
        simp [isErr] at hcontra
    · cases hq : w.config_from_spec s2
          (((Container.new self.base.container_id ContainerStatus.Creating none
            self.bundle (pathJoin self.base.root_path
              self.base.container_id)).set_systemd
            self.use_systemd).set_annotations s2.annotations).id
          rootless.isSome with
      | error e =>
        simp [isErr, noBackendInvoked, allSavesCreating, Container.new]
      | ok cfg =>
      simp only [EvM.bind_pair_ok, EvM.bind_pair_error, List.nil_append]
      cases hqs : w.config_save cfg
          (pathJoin self.base.root_path self.base.container_id) with
      | error e =>
        simp [isErr, noBackendInvoked, allSavesCreating, Container.new]
      | ok u6 =>
        have hcontra := hsave cfg
          (pathJoin self.base.root_path self.base.container_id)
        rw [hqs] at hcontra
        simp [isErr] at hcontra
  | none =>
    simp only [EvM.bind_pair_ok, EvM.bind_pair_error, EvM.pure,
      List.nil_append]
    cases hrl : w.rootless_new s2 with
    | error e =>
      simp [isErr, noBackendInvoked, allSavesCreating, Container.new]
    | ok rootless =>
    simp only [EvM.bind_pair_ok, EvM.bind_pair_error, List.nil_append]
    rcases h with hfs | hsave
    · cases hq : w.config_from_spec s2
          (((Container.new self.base.container_id ContainerStatus.Creating none
            self.bundle (pathJoin self.base.root_path
              self.base.container_id)).set_systemd
            self.use_systemd).set_annotations s2.annotations).id
          rootless.isSome with
      | error e =>
        simp [isErr, noBackendInvoked, allSavesCreating, Container.new]
      | ok cfg =>
        have hcontra := hfs s2
          (((Container.new self.base.container_id ContainerStatus.Creating none
            self.bundle (pathJoin self.base.root_path
              self.base.container_id)).set_systemd
            self.use_systemd).set_annotations s2.annotations).id
          rootless.isSome
        rw [hq] at hcontra
        simp [isErr] at hcontra
    · cases hq : w.config_from_spec s2
          (((Container.new self.base.container_id ContainerStatus.Creating none
            self.bundle (pathJoin self.base.root_path
              self.base.container_id)).set_systemd
            self.use_systemd).set_annotations s2.annotations).id
          rootless.isSome with
      | error e =>
        simp [isErr, noBackendInvoked, allSavesCreating, Container.new]
      | ok cfg =>
      simp only [EvM.bind_pair_ok, EvM.bind_pair_error, List.nil_append]
      cases hqs : w.config_save cfg
          (pathJoin self.base.root_path self.base.container_id) with
      | error e =>
        simp [isErr, noBackendInvoked, allSavesCreating, Container.new]
      | ok u6 =>
        have hcontra := hsave cfg
          (pathJoin self.base.root_path self.base.container_id)
        rw [hqs] at hcontra
        simp [isErr] at hcontra

/-- C5 witness: with an environment in which config derivation always
fails, a build errors, the backend is never invoked, and every persisted
state record stays at status Creating. -/
theorem build_config_failure_aborts_before_backend_witness :
    isErr (sampleBuilder.build w5wit).1 = true ∧
    noBackendInvoked (sampleBuilder.build w5wit).2 = true ∧
    allSavesCreating (sampleBuilder.build w5wit).2 = true :=
  build_config_failure_aborts_before_backend_status_stays_creating
    sampleBuilder w5wit (Or.inl fun _ _ _ => rfl)

/-- C6 counterexample: a failing working-directory change is surfaced to
the caller with an empty context chain, so this failing step is not
wrapped with a short context description identifying which step failed. -/
theorem build_chdir_failure_surfaced_without_step_context :
    sampleBuilder.build w6cex =
      (Except.error { ctx := [], base := "EPERM" },
       [Event.DirCreated ("/run/containers/c1"),
        Event.StateSaved (Container.new ("c1") ContainerStatus.Creating none
          ("/bundle") ("/run/containers/c1"))]) := rfl

/-- C6 amended: for every failing step of build (specification loading,
validation, spec canonicalization, directory conflict, directory creation,
state construction, state persistence, working-directory change, missing
root, root-path resolution, console-socket setup, rootless resolution,
config derivation, config persistence, backend invocation, state refresh),
the first error aborts all later steps (the trace stops at the failing
step) and is surfaced to the caller, neither swallowed nor retried; the
load, validate, canonicalize, create-dir, create-state and save-config
steps wrap the error with a step-identifying context, while the remaining
steps surface it with no added context. -/
theorem build_first_error_aborts_later_steps_and_is_surfaced (self : InitContainerBuilder) (w : World) :
    (∀ e, w.spec_load (pathJoin self.bundle ("config.json")) = Except.error e →
      self.build w =
        (Except.error { ctx := "failed to load spec" :: e.ctx, base := e.base },
         [])) ∧
    (∀ s e, w.spec_load (pathJoin self.bundle ("config.json")) = Except.ok s →
      InitContainerBuilder.validate_spec w s = Except.error e →
      self.build w =
        (Except.error { ctx := "failed to load spec" ::
          "failed to validate runtime spec" :: e.ctx, base := e.base }, [])) ∧
    (∀ s e, w.spec_load (pathJoin self.bundle ("config.json")) = Except.ok s →
      InitContainerBuilder.validate_spec w s = Except.ok () →
      w.canonicalize_rootfs s self.bundle = Except.error e →
      self.build w =
        (Except.error { ctx := "failed to load spec" ::
          "failed to canonicalize rootfs" :: e.ctx, base := e.base }, [])) ∧
    (∀ s s2, w.spec_load (pathJoin self.bundle ("config.json")) = Except.ok s →
      InitContainerBuilder.validate_spec w s = Except.ok () →
      w.canonicalize_rootfs s self.bundle = Except.ok s2 →
      w.dir_exists (pathJoin self.base.root_path self.base.container_id) =
        true →
      self.build w =
        (Except.error { ctx := ["failed to create container dir"],
                        base := alreadyExistsMsg self.base.container_id },
         [])) ∧
    (∀ s s2 e,
      w.spec_load (pathJoin self.bundle ("config.json")) = Except.ok s →
      InitContainerBuilder.validate_spec w s = Except.ok () →
      w.canonicalize_rootfs s self.bundle = Except.ok s2 →
      w.dir_exists (pathJoin self.base.root_path self.base.container_id) =
        false →
      w.create_dir_all (pathJoin self.base.root_path self.base.container_id) =
        Except.error e →
      self.build w =
        (Except.error { ctx := "failed to create container dir" ::
          "failed to create container dir" :: e.ctx, base := e.base }, [])) ∧
    (∀ s s2 e,
      w.spec_load (pathJoin self.bundle ("config.json")) = Except.ok s →
      InitContainerBuilder.validate_spec w s = Except.ok () →
      w.canonicalize_rootfs s self.bundle = Except.ok s2 →
      w.dir_exists (pathJoin self.base.root_path self.base.container_id) =
        false →
      w.create_dir_all (pathJoin self.base.root_path self.base.container_id) =
        Except.ok () →
      w.container_new = Except.error e →
      self.build w =
        (Except.error { ctx := "failed to create container state" :: e.ctx,
                        base := e.base },
         [Event.DirCreated (pathJoin self.base.root_path
           self.base.container_id)])) ∧
    (∀ s s2 e,
      w.spec_load (pathJoin self.bundle ("config.json")) = Except.ok s →
      InitContainerBuilder.validate_spec w s = Except.ok () →
      w.canonicalize_rootfs s self.bundle = Except.ok s2 →
      w.dir_exists (pathJoin self.base.root_path self.base.container_id) =
        false →
      w.create_dir_all (pathJoin self.base.root_path self.base.container_id) =
        Except.ok () →
      w.container_new = Except.ok () →
      w.container_save (Container.new self.base.container_id
        ContainerStatus.Creating none self.bundle
        (pathJoin self.base.root_path self.base.container_id)) =
        Except.error e →
      self.build w =
        (Except.error { ctx := "failed to create container state" :: e.ctx,
                        base := e.base },
         [Event.DirCreated (pathJoin self.base.root_path
           self.base.container_id)])) ∧
    (∀ s s2 e,
      w.spec_load (pathJoin self.bundle ("config.json")) = Except.ok s →
      InitContainerBuilder.validate_spec w s = Except.ok () →
      w.canonicalize_rootfs s self.bundle = Except.ok s2 →
      w.dir_exists (pathJoin self.base.root_path self.base.container_id) =
        false →
      w.create_dir_all (pathJoin self.base.root_path self.base.container_id) =
        Except.ok () →
      w.container_new = Except.ok () →
      w.container_save (Container.new self.base.container_id
        ContainerStatus.Creating none self.bundle
        (pathJoin self.base.root_path self.base.container_id)) =
        Except.ok () →
      w.chdir (pathJoin self.base.root_path self.base.container_id) =
        Except.error e →
      self.build w =
        (Except.error e,
         [Event.DirCreated (pathJoin self.base.root_path
            self.base.container_id),
          Event.StateSaved (Container.new self.base.container_id
            ContainerStatus.Creating none self.bundle
            (pathJoin self.base.root_path self.base.container_id))])) ∧
    (∀ s s2,
      w.spec_load (pathJoin self.bundle ("config.json")) = Except.ok s →
      InitContainerBuilder.validate_spec w s = Except.ok () →
      w.canonicalize_rootfs s self.bundle = Except.ok s2 →
      w.dir_exists (pathJoin self.base.root_path self.base.container_id) =
        false →
      w.create_dir_all (pathJoin self.base.root_path self.base.container_id) =
        Except.ok () →
      w.container_new = Except.ok () →
      w.container_save (Container.new self.base.container_id
        ContainerStatus.Creating none self.bundle
        (pathJoin self.base.root_path self.base.container_id)) =
        Except.ok () →
      w.chdir (pathJoin self.base.root_path self.base.container_id) =
        Except.ok () →
      s2.root = none →
      self.build w =
        (Except.error { ctx := [], base := "no root in spec" },
         [Event.DirCreated (pathJoin self.base.root_path
            self.base.container_id),
          Event.StateSaved (Container.new self.base.container_id
            ContainerStatus.Creating none self.bundle
            (pathJoin self.base.root_path self.base.container_id)),
          Event.ChdirTo (pathJoin self.base.root_path
            self.base.container_id)])) ∧
    (∀ s s2 root e,
      w.spec_load (pathJoin self.bundle ("config.json")) = Except.ok s →
      InitContainerBuilder.validate_spec w s = Except.ok () →
      w.canonicalize_rootfs s self.bundle = Except.ok s2 →
      w.dir_exists (pathJoin self.base.root_path self.base.container_id) =
        false →
      w.create_dir_all (pathJoin self.base.root_path self.base.container_id) =
        Except.ok () →
      w.container_new = Except.ok () →
      w.container_save (Container.new self.base.container_id
        ContainerStatus.Creating none self.bundle
        (pathJoin self.base.root_path self.base.container_id)) =
        Except.ok () →
      w.chdir (pathJoin self.base.root_path self.base.container_id) =
        Except.ok () →
      s2.root = some root →
      w.fs_canonicalize root.path = Except.error e →
      self.build w =
        (Except.error e,
         [Event.DirCreated (pathJoin self.base.root_path
            self.base.container_id),
          Event.StateSaved (Container.new self.base.container_id
            ContainerStatus.Creating none self.bundle
            (pathJoin self.base.root_path self.base.container_id)),
          Event.ChdirTo (pathJoin self.base.root_path
            self.base.container_id)])) ∧
    (∀ s s2 root rootfs cs e,
      w.spec_load (pathJoin self.bundle ("config.json")) = Except.ok s →
      InitContainerBuilder.validate_spec w s = Except.ok () →
      w.canonicalize_rootfs s self.bundle = Except.ok s2 →
      w.dir_exists (pathJoin self.base.root_path self.base.container_id) =
        false →
      w.create_dir_all (pathJoin self.base.root_path self.base.container_id) =
        Except.ok () →
      w.container_new = Except.ok () →
      w.container_save (Container.new self.base.container_id
        ContainerStatus.Creating none self.bundle
        (pathJoin self.base.root_path self.base.container_id)) =
        Except.ok () →
      w.chdir (pathJoin self.base.root_path self.base.container_id) =
        Except.ok () →
      s2.root = some root →
      w.fs_canonicalize root.path = Except.ok rootfs →
      self.base.console_socket = some cs →
      w.setup_console_socket
        (pathJoin self.base.root_path self.base.container_id) cs
        ("console-socket") = Except.error e →
      self.build w =
        (Except.error e,
         [Event.DirCreated (pathJoin self.base.root_path
            self.base.container_id),
          Event.StateSaved (Container.new self.base.container_id
            ContainerStatus.Creating none self.bundle
            (pathJoin self.base.root_path self.base.container_id)),
          Event.ChdirTo (pathJoin self.base.root_path
            self.base.container_id)])) ∧
    (∀ s s2 root rootfs fd e,
      w.spec_load (pathJoin self.bundle ("config.json")) = Except.ok s →
      InitContainerBuilder.validate_spec w s = Except.ok () →
      w.canonicalize_rootfs s self.bundle = Except.ok s2 →
      w.dir_exists (pathJoin self.base.root_path self.base.container_id) =
        false →
      w.create_dir_all (pathJoin self.base.root_path self.base.container_id) =
        Except.ok () →
      w.container_new = Except.ok () →
      w.container_save (Container.new self.base.container_id
        ContainerStatus.Creating none self.bundle
        (pathJoin self.base.root_path self.base.container_id)) =
        Except.ok () →
      w.chdir (pathJoin self.base.root_path self.base.container_id) =
        Except.ok () →
      s2.root = some root →
      w.fs_canonicalize root.path = Except.ok rootfs →
      (∀ cs, self.base.console_socket = some cs →
        w.setup_console_socket
          (pathJoin self.base.root_path self.base.container_id) cs
          ("console-socket") = Except.ok fd) →
      w.rootless_new s2 = Except.error e →
      self.build w =
        (Except.error e,
         [Event.DirCreated (pathJoin self.base.root_path
            self.base.container_id),
          Event.StateSaved (Container.new self.base.container_id
            ContainerStatus.Creating none self.bundle
            (pathJoin self.base.root_path self.base.container_id)),
          Event.ChdirTo (pathJoin self.base.root_path
            self.base.container_id)] ++ consoleTrace self)) ∧
    (∀ s s2 root rootfs fd rl e,
      w.spec_load (pathJoin self.bundle ("config.json")) = Except.ok s →
      InitContainerBuilder.validate_spec w s = Except.ok () →
      w.canonicalize_rootfs s self.bundle = Except.ok s2 →
      w.dir_exists (pathJoin self.base.root_path self.base.container_id) =
        false →
      w.create_dir_all (pathJoin self.base.root_path self.base.container_id) =
        Except.ok () →
      w.container_new = Except.ok () →
      w.container_save (Container.new self.base.container_id
        ContainerStatus.Creating none self.bundle
        (pathJoin self.base.root_path self.base.container_id)) =
        Except.ok () →
      w.chdir (pathJoin self.base.root_path self.base.container_id) =
        Except.ok () →
      s2.root = some root →
      w.fs_canonicalize root.path = Except.ok rootfs →
      (∀ cs, self.base.console_socket = some cs →
        w.setup_console_socket
          (pathJoin self.base.root_path self.base.container_id) cs
          ("console-socket") = Except.ok fd) →
      w.rootless_new s2 = Except.ok rl →
      w.config_from_spec s2 self.base.container_id rl.isSome =
        Except.error e →
      self.build w =
        (Except.error e,
         [Event.DirCreated (pathJoin self.base.root_path
            self.base.container_id),
          Event.StateSaved (Container.new self.base.container_id
            ContainerStatus.Creating none self.bundle
            (pathJoin self.base.root_path self.base.container_id)),
          Event.ChdirTo (pathJoin self.base.root_path
            self.base.container_id)] ++ consoleTrace self)) ∧
    (∀ s s2 root rootfs fd rl cfg e,
      w.spec_load (pathJoin self.bundle ("config.json")) = Except.ok s →
      InitContainerBuilder.validate_spec w s = Except.ok () →
      w.canonicalize_rootfs s self.bundle = Except.ok s2 →
      w.dir_exists (pathJoin self.base.root_path self.base.container_id) =
        false →
      w.create_dir_all (pathJoin self.base.root_path self.base.container_id) =
        Except.ok () →
      w.container_new = Except.ok () →
      w.container_save (Container.new self.base.container_id
        ContainerStatus.Creating none self.bundle
        (pathJoin self.base.root_path self.base.container_id)) =
        Except.ok () →
      w.chdir (pathJoin self.base.root_path self.base.container_id) =
        Except.ok () →
      s2.root = some root →
      w.fs_canonicalize root.path = Except.ok rootfs →
      (∀ cs, self.base.console_socket = some cs →
        w.setup_console_socket
          (pathJoin self.base.root_path self.base.container_id) cs
          ("console-socket") = Except.ok fd) →
      w.rootless_new s2 = Except.ok rl →
      w.config_from_spec s2 self.base.container_id rl.isSome =
        Except.ok cfg →
      w.config_save cfg (pathJoin self.base.root_path
        self.base.container_id) = Except.error e →
      self.build w =
        (Except.error { ctx := "failed to save config" :: e.ctx,
                        base := e.base },
         [Event.DirCreated (pathJoin self.base.root_path
            self.base.container_id),
          Event.StateSaved (Container.new self.base.container_id
            ContainerStatus.Creating none self.bundle
            (pathJoin self.base.root_path self.base.container_id)),
          Event.ChdirTo (pathJoin self.base.root_path
            self.base.container_id)] ++ consoleTrace self)) ∧
    (∀ s s2 root rootfs fd rl cfg e,
      w.spec_load (pathJoin self.bundle ("config.json")) = Except.ok s →
      InitContainerBuilder.validate_spec w s = Except.ok () →
      w.canonicalize_rootfs s self.bundle = Except.ok s2 →
      w.dir_exists (pathJoin self.base.root_path self.base.container_id) =
        false →
      w.create_dir_all (pathJoin self.base.root_path self.base.container_id) =
        Except.ok () →
      w.container_new = Except.ok () →
      w.container_save (Container.new self.base.container_id
        ContainerStatus.Creating none self.bundle
        (pathJoin self.base.root_path self.base.container_id)) =
        Except.ok () →
      w.chdir (pathJoin self.base.root_path self.base.container_id) =
        Except.ok () →
      s2.root = some root →
      w.fs_canonicalize root.path = Except.ok rootfs →
      (∀ cs, self.base.console_socket = some cs →
        w.setup_console_socket
          (pathJoin self.base.root_path self.base.container_id) cs
          ("console-socket") = Except.ok fd) →
      w.rootless_new s2 = Except.ok rl →
      w.config_from_spec s2 self.base.container_id rl.isSome =
        Except.ok cfg →
      w.config_save cfg (pathJoin self.base.root_path
        self.base.container_id) = Except.ok () →
      (∀ i, w.backend_create i = Except.error e) →
      self.build w =
        (Except.error e,
         [Event.DirCreated (pathJoin self.base.root_path
            self.base.container_id),
          Event.StateSaved (Container.new self.base.container_id
            ContainerStatus.Creating none self.bundle
            (pathJoin self.base.root_path self.base.container_id)),
          Event.ChdirTo (pathJoin self.base.root_path
            self.base.container_id)] ++ consoleTrace self ++
          [Event.ConfigSaved cfg (pathJoin self.base.root_path
             self.base.container_id),
           Event.BackendCreate {
             container_type := ContainerType.InitContainer,
             syscall := self.base.syscall,
             container_id := self.base.container_id,
             pid_file := self.base.pid_file,
             console_socket :=
               Option.map (fun _ => fd) self.base.console_socket,
             use_systemd := self.use_systemd,
             spec := s2,
             rootfs := rootfs,
             rootless := rl,
             notify_path := pathJoin (pathJoin self.base.root_path
               self.base.container_id) NOTIFY_FILE,
             container := some (((Container.new self.base.container_id
               ContainerStatus.Creating none self.bundle
               (pathJoin self.base.root_path
                 self.base.container_id)).set_systemd
               self.use_systemd).set_annotations s2.annotations),
             preserve_fds := self.base.preserve_fds,
             detached := false }])) ∧
    (∀ s s2 root rootfs fd rl cfg e,
      w.spec_load (pathJoin self.bundle ("config.json")) = Except.ok s →
      InitContainerBuilder.validate_spec w s = Except.ok () →
      w.canonicalize_rootfs s self.bundle = Except.ok s2 →
      w.dir_exists (pathJoin self.base.root_path self.base.container_id) =
        false →
      w.create_dir_all (pathJoin self.base.root_path self.base.container_id) =
        Except.ok () →
      w.container_new = Except.ok () →
      w.container_save (Container.new self.base.container_id
        ContainerStatus.Creating none self.bundle
        (pathJoin self.base.root_path self.base.container_id)) =
        Except.ok () →
      w.chdir (pathJoin self.base.root_path self.base.container_id) =
        Except.ok () →
      s2.root = some root →
      w.fs_canonicalize root.path = Except.ok rootfs →
      (∀ cs, self.base.console_socket = some cs →
        w.setup_console_socket
          (pathJoin self.base.root_path self.base.container_id) cs
          ("console-socket") = Except.ok fd) →
      w.rootless_new s2 = Except.ok rl →
      w.config_from_spec s2 self.base.container_id rl.isSome =
        Except.ok cfg →
      w.config_save cfg (pathJoin self.base.root_path
        self.base.container_id) = Except.ok () →
      (∀ i, w.backend_create i = Except.ok ()) →
      w.refresh_state (((Container.new self.base.container_id
        ContainerStatus.Creating none self.bundle
        (pathJoin self.base.root_path
          self.base.container_id)).set_systemd
        self.use_systemd).set_annotations s2.annotations) =
        Except.error e →
      self.build w =
        (Except.error e,
         [Event.DirCreated (pathJoin self.base.root_path
            self.base.container_id),
          Event.StateSaved (Container.new self.base.container_id
            ContainerStatus.Creating none self.bundle
            (pathJoin self.base.root_path self.base.container_id)),
          Event.ChdirTo (pathJoin self.base.root_path
            self.base.container_id)] ++ consoleTrace self ++
          [Event.ConfigSaved cfg (pathJoin self.base.root_path
             self.base.container_id),
           Event.BackendCreate {
             container_type := ContainerType.InitContainer,
             syscall := self.base.syscall,
             container_id := self.base.container_id,
             pid_file := self.base.pid_file,
             console_socket :=
               Option.map (fun _ => fd) self.base.console_socket,
             use_systemd := self.use_systemd,
             spec := s2,
             rootfs := rootfs,
             rootless := rl,
             notify_path := pathJoin (pathJoin self.base.root_path
               self.base.container_id) NOTIFY_FILE,
             container := some (((Container.new self.base.container_id
               ContainerStatus.Creating none self.bundle
               (pathJoin self.base.root_path
                 self.base.container_id)).set_systemd
               self.use_systemd).set_annotations s2.annotations),
             preserve_fds := self.base.preserve_fds,
             detached := false }])) := by
  refine ⟨?_, ?_, ?_, ?_, ?_, ?_, ?_, ?_, ?_, ?_, ?_, ?_, ?_, ?_, ?_, ?_⟩
  · intro e h1
    simp [InitContainerBuilder.build, InitContainerBuilder.load_spec, liftE,
      h1, BErr.withContext]
  · intro s e h1 h2
    simp [InitContainerBuilder.build, InitContainerBuilder.load_spec, liftE,
      h1, h2, BErr.withContext]
  · intro s e h1 h2 h3
    simp [InitContainerBuilder.build, InitContainerBuilder.load_spec, liftE,
      h1, h2, h3, BErr.withContext]
  · intro s s2 h1 h2 h3 h4
    simp [InitContainerBuilder.build, InitContainerBuilder.load_spec,
      InitContainerBuilder.create_container_dir, liftE, failWith,
      h1, h2, h3, h4, BErr.withContext]
  · intro s s2 e h1 h2 h3 h4 h5
    simp [InitContainerBuilder.build, InitContainerBuilder.load_spec,
      InitContainerBuilder.create_container_dir, liftE, failWith,
      h1, h2, h3, h4, h5, BErr.withContext]
  · intro s s2 e h1 h2 h3 h4 h5 h6
    simp [InitContainerBuilder.build, InitContainerBuilder.load_spec,
      InitContainerBuilder.create_container_dir,
      InitContainerBuilder.create_container_state, liftE, emit, EvM.pure,
      h1, h2, h3, h4, h5, h6, BErr.withContext]
  · intro s s2 e h1 h2 h3 h4 h5 h6 h7
    simp [InitContainerBuilder.build, InitContainerBuilder.load_spec,
      InitContainerBuilder.create_container_dir,
      InitContainerBuilder.create_container_state, liftE, emit, EvM.pure,
      h1, h2, h3, h4, h5, h6, h7, BErr.withContext]
  · intro s s2 e h1 h2 h3 h4 h5 h6 h7 h8
    simp [InitContainerBuilder.build, InitContainerBuilder.load_spec,
      InitContainerBuilder.create_container_dir,
      InitContainerBuilder.create_container_state, liftE, emit, EvM.pure,
      h1, h2, h3, h4, h5, h6, h7, h8]
  · intro s s2 h1 h2 h3 h4 h5 h6 h7 h8 h9
    simp [InitContainerBuilder.build, InitContainerBuilder.load_spec,
      InitContainerBuilder.create_container_dir,
      InitContainerBuilder.create_container_state, liftE, emit, EvM.pure,
      failWith, h1, h2, h3, h4, h5, h6, h7, h8, h9]
  · intro s s2 root e h1 h2 h3 h4 h5 h6 h7 h8 h9 h10
    simp [InitContainerBuilder.build, InitContainerBuilder.load_spec,
      InitContainerBuilder.create_container_dir,
      InitContainerBuilder.create_container_state, liftE, emit, EvM.pure,
      h1, h2, h3, h4, h5, h6, h7, h8, h9, h10]
  · intro s s2 root rootfs cs e h1 h2 h3 h4 h5 h6 h7 h8 h9 h10 h11 h12
    simp [InitContainerBuilder.build, InitContainerBuilder.load_spec,
      InitContainerBuilder.create_container_dir,
      InitContainerBuilder.create_container_state, liftE, emit, EvM.pure,
      h1, h2, h3, h4, h5, h6, h7, h8, h9, h10, h11, h12]
  · intro s s2 root rootfs fd e h1 h2 h3 h4 h5 h6 h7 h8 h9 h10 hcons h12
    cases hcso : self.base.console_socket with
    | none =>
      simp [InitContainerBuilder.build, InitContainerBuilder.load_spec,
        InitContainerBuilder.create_container_dir,
        InitContainerBuilder.create_container_state, liftE, emit, EvM.pure,
        consoleTrace, hcso,
        h1, h2, h3, h4, h5, h6, h7, h8, h9, h10, h12]
    | some cs =>
      have hfd := hcons cs hcso
      simp [InitContainerBuilder.build, InitContainerBuilder.load_spec,
        InitContainerBuilder.create_container_dir,
        InitContainerBuilder.create_container_state, liftE, emit, EvM.pure,
        consoleTrace, hcso, hfd,
        h1, h2, h3, h4, h5, h6, h7, h8, h9, h10, h12]
  · intro s s2 root rootfs fd rl e h1 h2 h3 h4 h5 h6 h7 h8 h9 h10 hcons h12
      h13
    simp only [Container.new] at h7
    cases hcso : self.base.console_socket with
    | none =>
      simp [InitContainerBuilder.build, InitContainerBuilder.load_spec,
        InitContainerBuilder.create_container_dir,
        InitContainerBuilder.create_container_state, liftE, emit, EvM.pure,
        consoleTrace, hcso, Container.new, Container.set_systemd,
        Container.set_annotations,
        h1, h2, h3, h4, h5, h6, h7, h8, h9, h10, h12, h13]
    | some cs =>
      have hfd := hcons cs hcso
      simp [InitContainerBuilder.build, InitContainerBuilder.load_spec,
        InitContainerBuilder.create_container_dir,
        InitContainerBuilder.create_container_state, liftE, emit, EvM.pure,
        consoleTrace, hcso, hfd, Container.new, Container.set_systemd,
        Container.set_annotations,
        h1, h2, h3, h4, h5, h6, h7, h8, h9, h10, h12, h13]
  · intro s s2 root rootfs fd rl cfg e h1 h2 h3 h4 h5 h6 h7 h8 h9 h10 hcons
      h12 h13 h14
    simp only [Container.new] at h7
    cases hcso : self.base.console_socket with
    | none =>
      simp [InitContainerBuilder.build, InitContainerBuilder.load_spec,
        InitContainerBuilder.create_container_dir,
        InitContainerBuilder.create_container_state, liftE, emit, EvM.pure,
        consoleTrace, hcso, Container.new, Container.set_systemd,
        Container.set_annotations, BErr.withContext,
        h1, h2, h3, h4, h5, h6, h7, h8, h9, h10, h12, h13, h14]
    | some cs =>
      have hfd := hcons cs hcso
      simp [InitContainerBuilder.build, InitContainerBuilder.load_spec,
        InitContainerBuilder.create_container_dir,
        InitContainerBuilder.create_container_state, liftE, emit, EvM.pure,
        consoleTrace, hcso, hfd, Container.new, Container.set_systemd,
        Container.set_annotations, BErr.withContext,
        h1, h2, h3, h4, h5, h6, h7, h8, h9, h10, h12, h13, h14]
  · intro s s2 root rootfs fd rl cfg e h1 h2 h3 h4 h5 h6 h7 h8 h9 h10 hcons
      h12 h13 h14 h15
    simp only [Container.new] at h7
    cases hcso : self.base.console_socket with
    | none =>
      simp [InitContainerBuilder.build, InitContainerBuilder.load_spec,
        InitContainerBuilder.create_container_dir,
        InitContainerBuilder.create_container_state, liftE, emit, EvM.pure,
        consoleTrace, hcso, Container.new, Container.set_systemd,
        Container.set_annotations, NOTIFY_FILE,
        h1, h2, h3, h4, h5, h6, h7, h8, h9, h10, h12, h13, h14, h15]
    | some cs =>
      have hfd := hcons cs hcso
      simp [InitContainerBuilder.build, InitContainerBuilder.load_spec,
        InitContainerBuilder.create_container_dir,
        InitContainerBuilder.create_container_state, liftE, emit, EvM.pure,
        consoleTrace, hcso, hfd, Container.new, Container.set_systemd,
        Container.set_annotations, NOTIFY_FILE,
        h1, h2, h3, h4, h5, h6, h7, h8, h9, h10, h12, h13, h14, h15]
  · intro s s2 root rootfs fd rl cfg e h1 h2 h3 h4 h5 h6 h7 h8 h9 h10 hcons
      h12 h13 h14 h15 h16
    simp only [Container.new] at h7
    simp only [Container.new, Container.set_systemd,
      Container.set_annotations] at h16
    cases hcso : self.base.console_socket with
    | none =>
      simp [InitContainerBuilder.build, InitContainerBuilder.load_spec,
        InitContainerBuilder.create_container_dir,
        InitContainerBuilder.create_container_state, liftE, emit, EvM.pure,
        consoleTrace, hcso, Container.new, Container.set_systemd,
        Container.set_annotations, NOTIFY_FILE,
        h1, h2, h3, h4, h5, h6, h7, h8, h9, h10, h12, h13, h14, h15, h16]
    | some cs =>
      have hfd := hcons cs hcso
      simp [InitContainerBuilder.build, InitContainerBuilder.load_spec,
        InitContainerBuilder.create_container_dir,
        InitContainerBuilder.create_container_state, liftE, emit, EvM.pure,
        consoleTrace, hcso, hfd, Container.new, Container.set_systemd,
        Container.set_annotations, NOTIFY_FILE,
        h1, h2, h3, h4, h5, h6, h7, h8, h9, h10, h12, h13, h14, h15, h16]

/-- C6 witness: two concrete first-failure instances: a chdir failure is
surfaced bare with the trace stopping after the state save, and a
state-persistence failure is surfaced wrapped with the create-state
context with the trace stopping after the directory creation. -/
theorem build_first_error_aborts_later_steps_and_is_surfaced_witness :
    (sampleBuilder.build w6cex =
      (Except.error { ctx := [], base := "EPERM" },
       [Event.DirCreated ("/run/containers/c1"),
        Event.StateSaved (Container.new ("c1") ContainerStatus.Creating none
          ("/bundle") ("/run/containers/c1"))])) ∧
    (sampleBuilder.build w6savefail =
      (Except.error { ctx := ["failed to create container state"],
                      base := "disk full" },
       [Event.DirCreated ("/run/containers/c1")])) :=
  ⟨((build_first_error_aborts_later_steps_and_is_surfaced sampleBuilder
      w6cex).2.2.2.2.2.2.2.1) sampleSpec sampleSpec
      { ctx := [], base := "EPERM" } rfl rfl rfl rfl rfl rfl rfl rfl,
   ((build_first_error_aborts_later_steps_and_is_surfaced sampleBuilder
      w6savefail).2.2.2.2.2.2.1) sampleSpec sampleSpec
      { ctx := [], base := "disk full" } rfl rfl rfl rfl rfl rfl rfl⟩

/-- C10: for every spec that loads, validates and canonicalizes
successfully but lacks a root block, build fails with the no-root-in-spec
error only after the state directory was created, the Creating state was
persisted into it, and the working directory was changed to it. -/
theorem build_missing_root_fails_after_dir_state_and_chdir
    (self : InitContainerBuilder) (w : World) (s s2 : Spec)
    (hload : w.spec_load (pathJoin self.bundle ("config.json")) = Except.ok s)
    (hval : InitContainerBuilder.validate_spec w s = Except.ok ())
    (hcanon : w.canonicalize_rootfs s self.bundle = Except.ok s2)
    (hroot : s2.root = none)
    (hexists : w.dir_exists (pathJoin self.base.root_path
      self.base.container_id) = false)
    (hcd : w.create_dir_all (pathJoin self.base.root_path
      self.base.container_id) = Except.ok ())
    (hcn : w.container_new = Except.ok ())
    (hsv : w.container_save (Container.new self.base.container_id
      ContainerStatus.Creating none self.bundle
      (pathJoin self.base.root_path self.base.container_id)) = Except.ok ())
    (hch : w.chdir (pathJoin self.base.root_path self.base.container_id) =
      Except.ok ()) :
    self.build w =
      (Except.error { ctx := [], base := "no root in spec" },
       [Event.DirCreated (pathJoin self.base.root_path
          self.base.container_id),
        Event.StateSaved (Container.new self.base.container_id
          ContainerStatus.Creating none self.bundle
          (pathJoin self.base.root_path self.base.container_id)),
        Event.ChdirTo (pathJoin self.base.root_path
          self.base.container_id)]) := by
  simp [InitContainerBuilder.build, InitContainerBuilder.load_spec,
    InitContainerBuilder.create_container_dir,
    InitContainerBuilder.create_container_state, liftE, emit, EvM.pure,
    failWith, hload, hval, hcanon, hroot, hexists, hcd, hcn, hsv, hch]

/-- C10 witness: a concrete build on a valid-version spec with no root
block fails with the no-root-in-spec error after creating the directory,
persisting the Creating state, and changing the working directory. -/
theorem build_missing_root_fails_after_dir_state_and_chdir_witness :
    sampleBuilder.build (okWorld s10wit) =
      (Except.error { ctx := [], base := "no root in spec" },
       [Event.DirCreated ("/run/containers/c1"),
        Event.StateSaved (Container.new ("c1") ContainerStatus.Creating none
          ("/bundle") ("/run/containers/c1")),
        Event.ChdirTo ("/run/containers/c1")]) :=
  build_missing_root_fails_after_dir_state_and_chdir sampleBuilder
    (okWorld s10wit) s10wit s10wit rfl rfl rfl rfl rfl rfl rfl rfl rfl
